import Mathlib

/-!
Verification of the `MiddleFingerDetector` program (`src/main.py`).

The program is a webcam gesture trigger: a capture loop reads frames,
a hand-pose model yields 21 landmark points per detected hand, a pure
classifier (`_is_middle_finger_only_up`) decides whether only the middle
finger is raised, and a dispatcher (`_handle_middle_finger_detected`)
either logs the detection (test mode) or issues an OS shutdown command
(live mode).

The shallow embedding below models:
* a hand observation as a total function `Fin 21 → Landmark`, with
  landmark coordinates as rationals (the classifier only compares
  y-coordinates, so any linearly ordered carrier is faithful);
* the classifier and the shutdown-command resolver as pure functions
  translated line by line from the source;
* the dispatcher and the capture loop as functions producing an explicit
  trace of observable events (console logs and OS command invocations)
  together with resource-release counts and the cause that stopped the
  loop.  One iteration of the `while` loop consumes one `FrameInput`
  (frame-read success flag, detected hands, escape-key flag); the end of
  the input list models `cap.isOpened()` turning false.
-/

/-- A single 2D hand landmark with normalized coordinates
(`src/main.py` consumes MediaPipe landmarks; only `y` is read). -/
structure Landmark where
  x : ℚ
  y : ℚ
deriving DecidableEq

/-- A hand observation: an ordered sequence of exactly 21 landmark points. -/
def Landmarks : Type := Fin 21 → Landmark

/-- `tips = [4, 8, 12, 16, 20]` from `_is_middle_finger_only_up`. -/
def tips : List ℕ := [4, 8, 12, 16, 20]

/-- The fingertip landmark index for finger `i`, as an index into the
21-point sequence. -/
def tipIdx (i : Fin 5) : Fin 21 :=
  ⟨tips.get (Fin.cast (by rfl) i), by fin_cases i <;> decide⟩

/-- The landmark index `tips[i] - 2` (the joint two below the tip). -/
def jointIdx (i : Fin 5) : Fin 21 :=
  ⟨tips.get (Fin.cast (by rfl) i) - 2, by fin_cases i <;> decide⟩

/-- `def is_up(i): return landmarks[tips[i]].y < landmarks[tips[i] - 2].y`
from `_is_middle_finger_only_up` in `src/main.py`. -/
def is_up (landmarks : Landmarks) (i : Fin 5) : Bool :=
  decide ((landmarks (tipIdx i)).y < (landmarks (jointIdx i)).y)

/-- `_is_middle_finger_only_up` from `src/main.py`: true iff the index
finger is not up, the middle finger is up, the ring finger is not up and
the pinky is not up.  The thumb (finger 0) is never consulted. -/
def is_middle_finger_only_up (landmarks : Landmarks) : Bool :=
  !is_up landmarks 1 &&
  is_up landmarks 2 &&
  !is_up landmarks 3 &&
  !is_up landmarks 4

/-- `_get_shutdown_command` from `src/main.py`, as a function of the
string returned by `platform.system()`. -/
def get_shutdown_command (system : String) : Option String :=
  if system = "Windows" then
    some "shutdown /s /t 1"
  else if system = "Linux" then
    some "shutdown -h now"
  else if system = "Darwin" then
    some "sudo shutdown -h now"
  else
    none

/-- An observable effect of the program: a console log line or the
invocation of an OS-level command via `os.system`. -/
inductive Event where
  | log (msg : String)
  | osCommand (cmd : String)
deriving DecidableEq

/-- `_handle_middle_finger_detected` from `src/main.py`, returning the
trace of observable events it performs.  `test_mode` and
`shutdown_command` are the fields set in `__init__`. -/
def handle_middle_finger_detected (test_mode : Bool)
    (shutdown_command : Option String) : List Event :=
  if test_mode then
    [Event.log "[EVENT] Middle finger detected (test mode)"]
  else
    Event.log "[EVENT] Middle finger detected — shutting down..." ::
      (match shutdown_command with
       | some cmd => [Event.osCommand cmd]
       | none => [Event.log "[ERROR] Unsupported OS — cannot shutdown"])

/-- The external stimuli consumed by one iteration of the `while` loop
in `run`: the success flag of `cap.read()`, the hand observations
returned by the model for the frame, and whether `waitKey` reports the
escape key. -/
structure FrameInput where
  ret : Bool
  hands : List Landmarks
  escPressed : Bool

/-- Why the capture loop stopped: the camera reported closed before the
iteration (`cap.isOpened()` false), a frame read failed, the escape key
was pressed, or a live-mode detection returned out of the loop. -/
inductive StopCause where
  | camClosed
  | readFail
  | esc
  | liveTrigger
deriving DecidableEq

/-- The observable outcome of `run`: the ordered event trace, the cause
that stopped the loop, and how many times `cap.release()` and
`cv2.destroyAllWindows()` were called. -/
structure RunResult where
  events : List Event
  cause : StopCause
  releases : ℕ
  destroys : ℕ
deriving DecidableEq

/-- The `for hand_landmarks in results.multi_hand_landmarks` body of
`run`: classify each hand in order; on a positive classification invoke
the dispatcher, and in live mode return out of the loop immediately
(skipping the remaining hands).  Returns the events emitted and whether
the live-mode early return was taken. -/
def processHands (test_mode : Bool) (cmd : Option String) :
    List Landmarks → List Event × Bool
  | [] => ([], false)
  | h :: rest =>
    if is_middle_finger_only_up h then
      let evs := handle_middle_finger_detected test_mode cmd
      if !test_mode then
        (evs, true)
      else
        let r := processHands test_mode cmd rest
        (evs ++ r.1, r.2)
    else
      processHands test_mode cmd rest

/-- The `while self.cap.isOpened()` loop of `run`, plus the trailing
`cap.release(); cv2.destroyAllWindows(); print(...)`.  The end of the
input list models `cap.isOpened()` turning false.  On the live-mode
early return the camera and windows are released inside the loop and
the trailing clean-stop print is skipped. -/
def runLoop (test_mode : Bool) (cmd : Option String) :
    List FrameInput → RunResult
  | [] =>
    ⟨[Event.log "[INFO] Detector stopped cleanly"], StopCause.camClosed, 1, 1⟩
  | f :: rest =>
    if f.ret = false then
      ⟨[Event.log "[ERROR] Failed to read frame from camera",
        Event.log "[INFO] Detector stopped cleanly"], StopCause.readFail, 1, 1⟩
    else
      let p := processHands test_mode cmd f.hands
      if p.2 then
        ⟨p.1, StopCause.liveTrigger, 1, 1⟩
      else if f.escPressed then
        ⟨p.1 ++ [Event.log "[INFO] ESC pressed — exiting",
                 Event.log "[INFO] Detector stopped cleanly"],
         StopCause.esc, 1, 1⟩
      else
        let r := runLoop test_mode cmd rest
        ⟨p.1 ++ r.events, r.cause, r.releases, r.destroys⟩

/-- `run` from `src/main.py`: the startup log followed by the capture
loop. -/
def run (test_mode : Bool) (cmd : Option String)
    (inputs : List FrameInput) : RunResult :=
  let r := runLoop test_mode cmd inputs
  ⟨Event.log "[INFO] Video stream started (press ESC to exit)" :: r.events,
   r.cause, r.releases, r.destroys⟩

/-- A concrete hand observation in which only the middle fingertip is
above its joint: landmark 12 has `y = 0`, every other landmark `y = 1`. -/
def middleUpHand : Landmarks := fun i => if i = (12 : Fin 21) then ⟨0, 0⟩ else ⟨0, 1⟩

/-- A hand observation in which the index and middle fingertips are both
above their joints (landmarks 8 and 12 have `y = 0`, all others `y = 1`). -/
def indexMiddleUpHand : Landmarks :=
  fun i => if i = (8 : Fin 21) ∨ i = (12 : Fin 21) then ⟨0, 0⟩ else ⟨0, 1⟩

/-- The thumb landmark indices (MediaPipe: THUMB_CMC=1, THUMB_MCP=2,
THUMB_IP=3, THUMB_TIP=4). -/
def thumbIndices : Finset (Fin 21) := {1, 2, 3, 4}

/-- `middleUpHand` with the thumb-tip landmark (index 4) moved. -/
def middleUpHandThumbMoved : Landmarks :=
  fun i => if i = (4 : Fin 21) then ⟨5, 5⟩ else middleUpHand i

/-- C1: for every sequence of 21 landmark points,
`_is_middle_finger_only_up` returns true iff the index finger is not up,
the middle finger is up, the ring finger is not up and the pinky is not
up, where finger with tip index `t ∈ [4,8,12,16,20]` is up exactly when
`landmarks[t].y < landmarks[t-2].y`.  Totality and absence of side
effects hold by construction: the embedding is a total pure function. -/
theorem C1_classifier_iff (landmarks : Landmarks) :
    is_middle_finger_only_up landmarks = true ↔
      (¬ (landmarks 8).y < (landmarks 6).y ∧
       (landmarks 12).y < (landmarks 10).y ∧
       ¬ (landmarks 16).y < (landmarks 14).y ∧
       ¬ (landmarks 20).y < (landmarks 18).y) := by
  have h1 : is_up landmarks 1 = decide ((landmarks 8).y < (landmarks 6).y) := rfl
  have h2 : is_up landmarks 2 = decide ((landmarks 12).y < (landmarks 10).y) := rfl
  have h3 : is_up landmarks 3 = decide ((landmarks 16).y < (landmarks 14).y) := rfl
  have h4 : is_up landmarks 4 = decide ((landmarks 20).y < (landmarks 18).y) := rfl
  simp [is_middle_finger_only_up, h1, h2, h3, h4, and_assoc]

/-- C3: `_get_shutdown_command` returns a present value for exactly the
three platform identifiers `"Windows"`, `"Linux"` and `"Darwin"`, with
the stated commands, and `none` for every other string (in particular
the empty string and case-mismatched variants, which are unequal to all
three identifiers). -/
theorem C3_shutdown_command (s : String) :
    ((get_shutdown_command s).isSome = true ↔
      s = "Windows" ∨ s = "Linux" ∨ s = "Darwin") ∧
    get_shutdown_command "Windows" = some "shutdown /s /t 1" ∧
    get_shutdown_command "Linux" = some "shutdown -h now" ∧
    get_shutdown_command "Darwin" = some "sudo shutdown -h now" := by
  refine ⟨?_, rfl, rfl, rfl⟩
  unfold get_shutdown_command
  split_ifs with h1 h2 h3 <;> simp_all

/-- C4: with `test_mode` true, the dispatcher only emits the test-mode
log event for every value of the shutdown directive (so no OS command is
invoked), and a positive classification never takes the live-mode early
return out of the capture loop. -/
theorem C4_test_mode_no_side_effect (cmd : Option String)
    (hands : List Landmarks) :
    handle_middle_finger_detected true cmd =
      [Event.log "[EVENT] Middle finger detected (test mode)"] ∧
    (processHands true cmd hands).2 = false := by
  refine ⟨rfl, ?_⟩
  induction hands with
  | nil => rfl
  | cons h rest ih =>
    by_cases hc : is_middle_finger_only_up h = true
    · simp [processHands, hc, ih]
    · simp [processHands, hc, ih]

/-- C6: with `test_mode` false and an absent shutdown directive, the
dispatcher emits the detection log and the unsupported-OS error log and
nothing else — in particular no `os.system` invocation. -/
theorem C6_unsupported_os :
    handle_middle_finger_detected false none =
      [Event.log "[EVENT] Middle finger detected — shutting down...",
       Event.log "[ERROR] Unsupported OS — cannot shutdown"] := rfl

/-- C7: whenever two distinct fingers among index, middle, ring and
pinky (fingers 1–4) both satisfy the up comparison,
`_is_middle_finger_only_up` returns false. -/
theorem C7_two_up_false (landmarks : Landmarks) (i j : Fin 5)
    (hi : i ≠ 0) (hj : j ≠ 0) (hij : i ≠ j)
    (hui : is_up landmarks i = true) (huj : is_up landmarks j = true) :
    is_middle_finger_only_up landmarks = false := by
  fin_cases i <;> fin_cases j <;> simp_all [is_middle_finger_only_up]

/-- Witness for C7: a hand with both the index and middle fingertips
above their joints is classified false. -/
theorem C7_two_up_false_witness :
    is_middle_finger_only_up indexMiddleUpHand = false :=
  C7_two_up_false indexMiddleUpHand 1 2 (by decide) (by decide) (by decide)
    (by decide) (by decide)

/-- C8: two landmark sequences agreeing outside the thumb landmark
indices are classified identically — the thumb never influences the
classifier. -/
theorem C8_thumb_irrelevant (l1 l2 : Landmarks)
    (h : ∀ i : Fin 21, i ∉ thumbIndices → l1 i = l2 i) :
    is_middle_finger_only_up l1 = is_middle_finger_only_up l2 := by
  unfold is_middle_finger_only_up is_up
  rw [h (tipIdx 1) (by decide), h (jointIdx 1) (by decide),
      h (tipIdx 2) (by decide), h (jointIdx 2) (by decide),
      h (tipIdx 3) (by decide), h (jointIdx 3) (by decide),
      h (tipIdx 4) (by decide), h (jointIdx 4) (by decide)]

/-- Witness for C8: moving the thumb-tip landmark of `middleUpHand`
does not change the classification. -/
theorem C8_thumb_irrelevant_witness :
    is_middle_finger_only_up middleUpHand =
      is_middle_finger_only_up middleUpHandThumbMoved :=
  C8_thumb_irrelevant middleUpHand middleUpHandThumbMoved (by decide)

/-- The capture loop calls `cap.release()` exactly once on every path. -/
theorem runLoop_releases (tm : Bool) (cmd : Option String) :
    ∀ inputs : List FrameInput, (runLoop tm cmd inputs).releases = 1
  | [] => rfl
  | f :: rest => by
    rw [runLoop]
    split
    · rfl
    · dsimp only
      split
      · rfl
      · split
        · rfl
        · exact runLoop_releases tm cmd rest

/-- The capture loop calls `cv2.destroyAllWindows()` exactly once on
every path. -/
theorem runLoop_destroys (tm : Bool) (cmd : Option String) :
    ∀ inputs : List FrameInput, (runLoop tm cmd inputs).destroys = 1
  | [] => rfl
  | f :: rest => by
    rw [runLoop]
    split
    · rfl
    · dsimp only
      split
      · rfl
      · split
        · rfl
        · exact runLoop_destroys tm cmd rest

/-- The dispatcher never emits the clean-stop log line. -/
theorem cleanStop_not_in_handler (tm : Bool) (cmd : Option String) :
    Event.log "[INFO] Detector stopped cleanly" ∉
      handle_middle_finger_detected tm cmd := by
  cases tm <;> cases cmd <;> simp [handle_middle_finger_detected]

/-- Processing the hands of one frame never emits the clean-stop log
line. -/
theorem cleanStop_not_in_processHands (tm : Bool) (cmd : Option String) :
    ∀ hands : List Landmarks,
      Event.log "[INFO] Detector stopped cleanly" ∉ (processHands tm cmd hands).1
  | [] => by simp [processHands]
  | h :: rest => by
    rw [processHands]
    split
    · dsimp only
      split
      · exact cleanStop_not_in_handler tm cmd
      · simp only [List.mem_append, not_or]
        exact ⟨cleanStop_not_in_handler tm cmd,
               cleanStop_not_in_processHands tm cmd rest⟩
    · exact cleanStop_not_in_processHands tm cmd rest

/-- The clean-stop log line appears in the loop trace exactly when the
loop did not stop through the live-mode early return. -/
theorem runLoop_cleanStop (tm : Bool) (cmd : Option String) :
    ∀ inputs : List FrameInput,
      (Event.log "[INFO] Detector stopped cleanly" ∈ (runLoop tm cmd inputs).events ↔
        (runLoop tm cmd inputs).cause ≠ StopCause.liveTrigger)
  | [] => by simp [runLoop]
  | f :: rest => by
    rw [runLoop]
    split
    · simp
    · dsimp only
      split
      · simp [cleanStop_not_in_processHands tm cmd f.hands]
      · split
        · simp
        · simpa [cleanStop_not_in_processHands tm cmd f.hands] using
            runLoop_cleanStop tm cmd rest

/-- Counterexample for C2: in live mode with a hand showing only the
middle finger on the first frame, the loop stops through the live-mode
trigger but the trace contains no clean-stop message (the code returns
from inside the loop, skipping the final `print`). -/
theorem C2_counterexample :
    (run false none [⟨true, [middleUpHand], false⟩]).cause =
      StopCause.liveTrigger ∧
    Event.log "[INFO] Detector stopped cleanly" ∉
      (run false none [⟨true, [middleUpHand], false⟩]).events := by
  decide

/-- C2 as amended: on every transition of the capture loop to the
stopped state the camera and display resources are released (exactly
once), and a clean-stop message is logged precisely on the stop paths
other than the live-mode detection trigger (camera closed, frame-read
failure, escape key); the live-mode trigger path releases the resources
but skips the clean-stop message. -/
theorem C2_amended_stop_logging (tm : Bool) (cmd : Option String)
    (inputs : List FrameInput) :
    (run tm cmd inputs).releases = 1 ∧
    (run tm cmd inputs).destroys = 1 ∧
    (Event.log "[INFO] Detector stopped cleanly" ∈ (run tm cmd inputs).events ↔
      (run tm cmd inputs).cause ≠ StopCause.liveTrigger) := by
  have hne : Event.log "[INFO] Detector stopped cleanly" ≠
      Event.log "[INFO] Video stream started (press ESC to exit)" := by decide
  refine ⟨runLoop_releases tm cmd inputs, runLoop_destroys tm cmd inputs, ?_⟩
  simp [run, hne, runLoop_cleanStop tm cmd inputs]

/-- C5: on every exit path of `run` — normal stop, frame-read error, or
live-mode detection trigger — the camera handle is released exactly
once. -/
theorem C5_camera_released_once (tm : Bool) (cmd : Option String)
    (inputs : List FrameInput) :
    (run tm cmd inputs).releases = 1 :=
  runLoop_releases tm cmd inputs

/-- C9: if the frame read fails on an iteration of the capture loop
(`runLoop` applied to the remaining inputs, so in particular the first
iteration), the loop emits exactly the read-error log and the clean-stop
log, stops with cause `readFail`, and releases the camera and windows
once; the hands of that frame are never classified or dispatched — the
result does not depend on them. -/
theorem C9_read_failure (tm : Bool) (cmd : Option String)
    (bad : FrameInput) (rest : List FrameInput) (h : bad.ret = false) :
    runLoop tm cmd (bad :: rest) =
      ⟨[Event.log "[ERROR] Failed to read frame from camera",
        Event.log "[INFO] Detector stopped cleanly"],
       StopCause.readFail, 1, 1⟩ := by
  rw [runLoop]
  simp [h]

/-- Witness for C9: a first frame whose read fails, even one carrying a
middle-finger hand, yields only the error and clean-stop logs. -/
theorem C9_read_failure_witness :
    runLoop true none [⟨false, [middleUpHand], true⟩] =
      ⟨[Event.log "[ERROR] Failed to read frame from camera",
        Event.log "[INFO] Detector stopped cleanly"],
       StopCause.readFail, 1, 1⟩ :=
  C9_read_failure true none ⟨false, [middleUpHand], true⟩ [] rfl

/-- In live mode, a frame containing a positively classified hand makes
`processHands` take the early return. -/
theorem processHands_live_detect (cmd : Option String) :
    ∀ hands : List Landmarks,
      (∃ h ∈ hands, is_middle_finger_only_up h = true) →
      (processHands false cmd hands).2 = true
  | [], hex => by simp at hex
  | hd :: rest, hex => by
    rw [processHands]
    by_cases hc : is_middle_finger_only_up hd = true
    · simp [hc]
    · obtain ⟨x, hx, hxc⟩ := hex
      rcases List.mem_cons.mp hx with rfl | hx2
      · exact absurd hxc hc
      · simp only [hc, if_false, Bool.false_eq_true]
        exact processHands_live_detect cmd rest ⟨x, hx2, hxc⟩

/-- C10: in live mode, a frame whose read succeeded and that contains a
positively classified hand stops the loop through the live-mode trigger
and releases the camera and display resources, for every value of the
shutdown directive — including `none` (unsupported OS). -/
theorem C10_live_trigger_stops (cmd : Option String) (f : FrameInput)
    (rest : List FrameInput) (hret : f.ret = true)
    (hdet : ∃ h ∈ f.hands, is_middle_finger_only_up h = true) :
    (runLoop false cmd (f :: rest)).cause = StopCause.liveTrigger ∧
    (runLoop false cmd (f :: rest)).releases = 1 ∧
    (runLoop false cmd (f :: rest)).destroys = 1 := by
  rw [runLoop]
  simp [hret, processHands_live_detect cmd f.hands hdet]

/-- Witness for C10: with an absent shutdown directive, a first-frame
detection in live mode still stops the loop and releases resources. -/
theorem C10_live_trigger_stops_witness :
    (runLoop false none [⟨true, [middleUpHand], false⟩]).cause =
      StopCause.liveTrigger ∧
    (runLoop false none [⟨true, [middleUpHand], false⟩]).releases = 1 ∧
    (runLoop false none [⟨true, [middleUpHand], false⟩]).destroys = 1 :=
  C10_live_trigger_stops none ⟨true, [middleUpHand], false⟩ [] rfl
    ⟨middleUpHand, by simp, by decide⟩
